import Mathlib

/-!
Verification of the precision-controlled dynamic function invocation harness:
two sibling command-line entry points (a unary and a binary invoker) that
resolve a mathematical function by name from the mpmath library namespace,
set a decimal working precision, parse textual operands to arbitrary-precision
values, evaluate, and print the result.

The two scripts (call_unary_math_function.py and call_binary_math_function.py)
are embedded shallowly below as pure Lean functions from the argument vector
to a run result recording the text printed to standard output, an event trace
of the pipeline steps in execution order, and the termination kind.

The mpmath library itself is an external collaborator whose code is not part
of this repository; the pieces of it the harness touches (text-to-number
parsing, the precision setting, a catalogue of named functions, rendering)
are modelled from the specification and marked as such in their doc comments.
-/

/-- A numeric value of the arbitrary-precision library: a finite value held
as a scaled decimal — the integer m at the decimal exponent e denotes
m divided by the e-th power of ten — or one of the special values the spec
allows the underlying arithmetic to produce (infinity, not-a-number). -/
inductive MpVal where
  | real (m : Int) (e : Nat)
  | inf
  | ninf
  | nan
  deriving DecidableEq, Repr

/-- A Python exception kind relevant to the harness: a value error raised by
numeric parsing (carrying the offending string, as the traceback would), or a
type error raised when a resolved attribute is called at the wrong arity or
is not callable at all. -/
inductive PyErr where
  | valueError (offending : String)
  | typeError
  deriving DecidableEq, Repr

/-- How a run of a script terminates: falling off the end of main (process
status 0), an explicit sys.exit with a code, or an uncaught exception
(Python terminates with status 1 and a traceback on standard error). -/
inductive ExitKind where
  | normal
  | exitCode (n : Nat)
  | uncaught (e : PyErr)
  deriving DecidableEq, Repr

/-- The process exit status an ExitKind produces. -/
def exitStatus : ExitKind → Nat
  | .normal => 0
  | .exitCode n => n
  | .uncaught _ => 1

/-- One step of the pipeline, recorded when the script enters that step:
parsing an operand string, parsing the precision string, assigning the
library precision setting, resolving the function name, and calling the
resolved function. -/
inductive Event where
  | parseOperand (raw : String)
  | parsePrecision (raw : String)
  | setPrecision (p : Int)
  | resolve (name : String)
  | evaluate (name : String)
  deriving DecidableEq, Repr

/-- The observable outcome of one run: everything printed to standard output
(each print appends a line terminator), the trace of pipeline steps in
execution order, and the termination kind. -/
structure RunResult where
  stdout : String
  events : List Event
  exit : ExitKind
  deriving DecidableEq, Repr

/-- Value of a list of decimal digit characters. -/
def digitsVal (ds : List Char) : Nat :=
  ds.foldl (fun a c => a * 10 + (c.toNat - 48)) 0

/-- All characters are decimal digits and there is at least one. -/
def allDigits (ds : List Char) : Bool :=
  ds ≠ [] && ds.all Char.isDigit

/-- Modelled from the spec: integer parsing of the precision argument (the
Python built-in int applied to a string): an optional sign followed by at
least one decimal digit; anything else raises a value error. -/
def pyInt (s : String) : Option Int :=
  match s.toList with
  | '-' :: ds => if allDigits ds then some (-(digitsVal ds : Int)) else none
  | '+' :: ds => if allDigits ds then some (digitsVal ds : Int) else none
  | ds => if allDigits ds then some (digitsVal ds : Int) else none

/-- Mantissa of a decimal literal: digits with an optional decimal point,
at least one digit overall.  Returns the numerator and the number of
fractional digits. -/
def parseMantissa (cs : List Char) : Option (Nat × Nat) :=
  match cs.span (fun c => c ≠ '.') with
  | (intPart, []) =>
      if allDigits intPart then some (digitsVal intPart, 0) else none
  | (intPart, _ :: fracPart) =>
      if intPart.all Char.isDigit && fracPart.all Char.isDigit
          && (intPart ≠ [] || fracPart ≠ []) then
        some (digitsVal (intPart ++ fracPart), fracPart.length)
      else none

/-- Exponent part of a decimal literal: an optional sign and digits. -/
def parseExponent (cs : List Char) : Option Int :=
  match cs with
  | '-' :: ds => if allDigits ds then some (-(digitsVal ds : Int)) else none
  | '+' :: ds => if allDigits ds then some (digitsVal ds : Int) else none
  | ds => if allDigits ds then some (digitsVal ds : Int) else none

/-- The finite value of a mantissa numerator n with k fractional digits at
decimal exponent ex: n times ten to the (ex - k), as a scaled decimal. -/
def mkDecimal (n : Nat) (k : Nat) (ex : Int) : MpVal :=
  if (k : Int) ≤ ex then .real ((n : Int) * (10 : Int).pow (ex - k).toNat) 0
  else .real (n : Int) (k - ex.toNat)

/-- Value of an unsigned decimal literal, split at an optional exponent
marker: integers, decimal fractions and scientific notation. -/
def parseUnsigned (cs : List Char) : Option MpVal :=
  match cs.span (fun c => c ≠ 'e' && c ≠ 'E') with
  | (mant, []) => do
      let (n, k) ← parseMantissa mant
      pure (mkDecimal n k 0)
  | (mant, _ :: expPart) => do
      let (n, k) ← parseMantissa mant
      let ex ← parseExponent expPart
      pure (mkDecimal n k ex)

/-- Negation on library values. -/
def mpNeg : MpVal → MpVal
  | .real m e => .real (-m) e
  | .inf => .ninf
  | .ninf => .inf
  | .nan => .nan

/-- Modelled from the spec: text-to-number parsing of the external
arbitrary-precision library (mpmath.mpf applied to a string).  Accepts
integers, decimal fractions and scientific notation, with an optional sign,
and the special tokens for infinities and not-a-number; malformed text
raises a value error.  The model keeps the parsed value exact; the spec
notes that in the library, parsing rounds at the active precision. -/
def mpf (s : String) : Option MpVal :=
  if s = "inf" || s = "+inf" then some .inf
  else if s = "-inf" then some .ninf
  else if s = "nan" then some .nan
  else
    match s.toList with
    | '-' :: cs => (parseUnsigned cs).map mpNeg
    | '+' :: cs => parseUnsigned cs
    | cs => parseUnsigned cs

/-- The decimal-digit precision the library actually holds after the
assignment mpmath.mp.dps = p.  Modelled from the spec: the collaborator
provides a precision-context setting holding an integer of at least 1; the
spec assigns the assignment itself no failure mode, so any integer is
accepted and the effective precision is clamped to at least one digit. -/
def mpSetDps (p : Int) : Nat := max 1 p.toNat

/-- An attribute of the modelled mpmath namespace.  Modelled from the spec:
a representative slice of the collaborator's closed catalogue of named
mathematical operations — two single-operand functions, two two-operand
functions, and a numeric constant (a non-callable attribute of the
namespace). -/
inductive MpAttr where
  | fabs
  | fneg
  | power
  | divide
  | pi
  deriving DecidableEq, Repr

/-- Whether the attribute is a single-operand function of the catalogue. -/
def mpAttrIsUnary : MpAttr → Bool
  | .fabs => true
  | .fneg => true
  | _ => false

/-- Whether the attribute is a two-operand function of the catalogue. -/
def mpAttrIsBinary : MpAttr → Bool
  | .power => true
  | .divide => true
  | _ => false

/-- Modelled from the spec: attribute lookup in the library namespace
(getattr on the mpmath module).  One flat namespace holds every attribute;
an absent name raises an attribute error, modelled as none. -/
def getattrMp : String → Option MpAttr
  | "fabs" => some .fabs
  | "fneg" => some .fneg
  | "power" => some .power
  | "divide" => some .divide
  | "pi" => some .pi
  | _ => none

/-- Absolute value on library values. -/
def mpAbs : MpVal → MpVal
  | .real m e => .real (m.natAbs : Int) e
  | .inf => .inf
  | .ninf => .inf
  | .nan => .nan

/-- Modelled from the spec: the power function of the catalogue, exact on a
finite base and a finite non-negative integer exponent (scenario: power
2 10 is 1024); every other case collapses to the not-a-number special
value in this model, which no claim inspects. -/
def mpPow : MpVal → MpVal → MpVal
  | .real m1 e1, .real m2 e2 =>
      if 0 ≤ m2 && m2 % (10 : Int).pow e2 = 0 then
        let k := (m2 / (10 : Int).pow e2).toNat
        .real (m1.pow k) (e1 * k)
      else .nan
  | _, _ => .nan

/-- Modelled from the spec: the division function of the catalogue, at the
active precision.  Division by zero yields the library's defined special
value — an infinity token of the dividend's sign, not-a-number for zero
over zero (scenario: divide 1 0 prints an infinity token, not a crash).
A nonzero quotient is truncated at dps fractional digits, the model's
stand-in for the library's rounding at the active precision. -/
def mpDiv (dps : Nat) : MpVal → MpVal → MpVal
  | .real m1 e1, .real m2 e2 =>
      if m2 = 0 then
        if 0 < m1 then .inf else if m1 < 0 then .ninf else .nan
      else .real ((m1 * (10 : Int).pow (e2 + dps)).tdiv (m2 * (10 : Int).pow e1)) dps
  | _, _ => .nan

/-- Calling a resolved attribute with one positional argument under the
active precision.  A two-operand function is missing a required argument
and a constant is not callable: both raise a type error, exactly as
calling them in Python would. -/
def applyMp1 (_dps : Nat) (f : MpAttr) (x : MpVal) : Except PyErr MpVal :=
  match f with
  | .fabs => .ok (mpAbs x)
  | .fneg => .ok (mpNeg x)
  | .power => .error .typeError
  | .divide => .error .typeError
  | .pi => .error .typeError

/-- Calling a resolved attribute with two positional arguments under the
active precision.  A single-operand function is given one argument too
many and a constant is not callable: both raise a type error. -/
def applyMp2 (dps : Nat) (f : MpAttr) (x y : MpVal) : Except PyErr MpVal :=
  match f with
  | .power => .ok (mpPow x y)
  | .divide => .ok (mpDiv dps x y)
  | .fabs => .error .typeError
  | .fneg => .error .typeError
  | .pi => .error .typeError

/-- Decimal digit characters of n, most significant first, by fuel-bounded
division. -/
def natDigitsAux (fuel : Nat) (n : Nat) : List Char :=
  match fuel with
  | 0 => []
  | fuel + 1 =>
      if n = 0 then []
      else natDigitsAux fuel (n / 10) ++ [Char.ofNat (48 + n % 10)]

/-- Decimal digit characters of n, most significant first. -/
def natDigits (n : Nat) : List Char :=
  if n = 0 then ['0'] else natDigitsAux (n + 1) n

/-- Drop trailing zero digits, keeping at least one digit. -/
def trimZeros (ds : List Char) : List Char :=
  match (ds.reverse.dropWhile (fun c => c = '0')).reverse with
  | [] => ['0']
  | ds => ds

/-- Left-pad a digit list with zeros to the given length. -/
def padZeros (len : Nat) (ds : List Char) : List Char :=
  List.replicate (len - ds.length) '0' ++ ds

/-- Modelled from the spec: number-to-text rendering of the library (str on
an mpf value) — the canonical decimal text form at the active precision.
The exact rounding and formatting convention is library-defined (an open
question of the spec); this model prints the sign, the integer part, a
decimal point and the fractional digits truncated at the active precision
with trailing zeros trimmed, and the fixed tokens for the special
values. -/
def mpStr (dps : Nat) : MpVal → String
  | .inf => "+inf"
  | .ninf => "-inf"
  | .nan => "nan"
  | .real m e =>
      let sign := if m < 0 then "-" else ""
      let ds := padZeros (e + 1) (natDigits m.natAbs)
      let intPart := ds.take (ds.length - e)
      let fracPart := ds.drop (ds.length - e)
      sign ++ String.mk intPart ++ "." ++
        String.mk (trimZeros (if fracPart = [] then ['0'] else fracPart.take dps))

/-- The usage line of the unary invoker, naming the invoking program. -/
def unaryUsage : String :=
  "Usage: python3 call_unary_math_function.py <function_name> <x> <precision>"

/-- The usage line of the binary invoker, naming the invoking program. -/
def binaryUsage : String :=
  "Usage: python3 call_binary_math_function.py <function_name> <x> <y> <precision>"

/-- The line printed when the requested name is absent from the library
namespace. -/
def notFoundLine (name : String) : String :=
  "Function " ++ (name ++ " not found in mpmath.\n")

/-- Shallow embedding of main of call_unary_math_function.py, statement by
statement: check the argument count (four values counting the program
name) and print usage and exit 1 on mismatch; parse the operand with
mpmath.mpf; parse the precision with int; assign mpmath.mp.dps; resolve
the name with getattr under a try/except that prints the not-found line
and exits 1; call the resolved attribute on the operand; print the
result.  Failed parses and failed calls propagate as uncaught
exceptions. -/
def unaryMain (argv : List String) : RunResult :=
  match argv with
  | [_, function_name, xStr, pStr] =>
    match mpf xStr with
    | none => ⟨"", [.parseOperand xStr], .uncaught (.valueError xStr)⟩
    | some x =>
      match pyInt pStr with
      | none =>
          ⟨"", [.parseOperand xStr, .parsePrecision pStr],
            .uncaught (.valueError pStr)⟩
      | some precision =>
        let dps := mpSetDps precision
        let evs := [.parseOperand xStr, .parsePrecision pStr,
          .setPrecision precision, .resolve function_name]
        match getattrMp function_name with
        | none => ⟨notFoundLine function_name, evs, .exitCode 1⟩
        | some func =>
          match applyMp1 dps func x with
          | .error e => ⟨"", evs ++ [.evaluate function_name], .uncaught e⟩
          | .ok result =>
              ⟨mpStr dps result ++ "\n", evs ++ [.evaluate function_name],
                .normal⟩
  | _ => ⟨unaryUsage ++ "\n", [], .exitCode 1⟩

/-- Shallow embedding of main of call_binary_math_function.py: identical to
the unary invoker except that it expects five argument values counting the
program name, parses two operands left to right, and calls the resolved
attribute with both. -/
def binaryMain (argv : List String) : RunResult :=
  match argv with
  | [_, function_name, xStr, yStr, pStr] =>
    match mpf xStr with
    | none => ⟨"", [.parseOperand xStr], .uncaught (.valueError xStr)⟩
    | some x =>
      match mpf yStr with
      | none =>
          ⟨"", [.parseOperand xStr, .parseOperand yStr],
            .uncaught (.valueError yStr)⟩
      | some y =>
        match pyInt pStr with
        | none =>
            ⟨"", [.parseOperand xStr, .parseOperand yStr,
              .parsePrecision pStr], .uncaught (.valueError pStr)⟩
        | some precision =>
          let dps := mpSetDps precision
          let evs := [.parseOperand xStr, .parseOperand yStr,
            .parsePrecision pStr, .setPrecision precision,
            .resolve function_name]
          match getattrMp function_name with
          | none => ⟨notFoundLine function_name, evs, .exitCode 1⟩
          | some func =>
            match applyMp2 dps func x y with
            | .error e => ⟨"", evs ++ [.evaluate function_name], .uncaught e⟩
            | .ok result =>
                ⟨mpStr dps result ++ "\n", evs ++ [.evaluate function_name],
                  .normal⟩
  | _ => ⟨binaryUsage ++ "\n", [], .exitCode 1⟩

/-- On an argument vector of any other length the unary invoker takes its
usage branch. -/
theorem unaryMain_usage (argv : List String) (h : argv.length ≠ 4) :
    unaryMain argv = ⟨unaryUsage ++ "\n", [], .exitCode 1⟩ := by
  rcases argv with _ | ⟨a, _ | ⟨b, _ | ⟨c, _ | ⟨d, _ | ⟨e, rest⟩⟩⟩⟩⟩
  · rfl
  · rfl
  · rfl
  · rfl
  · exact absurd rfl h
  · rfl

/-- On an argument vector of any other length the binary invoker takes its
usage branch. -/
theorem binaryMain_usage (argv : List String) (h : argv.length ≠ 5) :
    binaryMain argv = ⟨binaryUsage ++ "\n", [], .exitCode 1⟩ := by
  rcases argv with _ | ⟨a, _ | ⟨b, _ | ⟨c, _ | ⟨d, _ | ⟨e, _ | ⟨f, rest⟩⟩⟩⟩⟩⟩
  · rfl
  · rfl
  · rfl
  · rfl
  · rfl
  · exact absurd rfl h
  · rfl

/-- Calling an attribute that is not a single-operand function with one
argument raises a type error. -/
theorem applyMp1_not_unary (dps : Nat) (f : MpAttr) (x : MpVal)
    (h : mpAttrIsUnary f = false) :
    applyMp1 dps f x = .error .typeError := by
  cases f <;> simp_all [mpAttrIsUnary, applyMp1]

/-- Calling an attribute that is not a two-operand function with two
arguments raises a type error. -/
theorem applyMp2_not_binary (dps : Nat) (f : MpAttr) (x y : MpVal)
    (h : mpAttrIsBinary f = false) :
    applyMp2 dps f x y = .error .typeError := by
  cases f <;> simp_all [mpAttrIsBinary, applyMp2]

/-- C3: for the argument vector (divide, 1, 0, precision 20) the binary
invoker prints the library's special value for division by zero — the
infinity token — followed by a line terminator, reaches the reporting step
(the evaluate event is in the trace), and exits with status 0 rather than
crashing. -/
theorem divide_by_zero_prints_infinity_token :
    binaryMain ["call_binary_math_function.py", "divide", "1", "0", "20"] =
      ⟨"+inf" ++ "\n",
       [.parseOperand "1", .parseOperand "0", .parsePrecision "20",
        .setPrecision 20, .resolve "divide", .evaluate "divide"],
       .normal⟩ ∧ exitStatus ExitKind.normal = 0 :=
  ⟨by decide, rfl⟩

/-- C2, counterexample: the name power denotes a two-operand function of the
catalogue, yet the unary invoker run with it does not reach the not-found
path: it resolves the name and crashes at the call with an uncaught type
error (empty standard output, uncaught-exception termination, not the
sys.exit path), and symmetrically for the unary name fabs under the binary
invoker.  This refutes the claim that such a run terminates with the
not-found message and exit path. -/
theorem binary_name_on_unary_invoker_crashes :
    unaryMain ["call_unary_math_function.py", "power", "2", "10"] =
      ⟨"", [.parseOperand "2", .parsePrecision "10", .setPrecision 10,
            .resolve "power", .evaluate "power"],
       .uncaught .typeError⟩ ∧
    binaryMain ["call_binary_math_function.py", "fabs", "2", "3", "10"] =
      ⟨"", [.parseOperand "2", .parseOperand "3", .parsePrecision "10",
            .setPrecision 10, .resolve "fabs", .evaluate "fabs"],
       .uncaught .typeError⟩ :=
  ⟨by decide, by decide⟩

/-- C2, amended: a function name of the other arity is not rejected by the
resolver — both invokers look the name up in the same flat namespace — so
the run resolves it, and terminates with an uncaught type error raised at
the evaluation step (the call at the wrong arity), with nothing printed;
it never takes the Unknown Function Error path. -/
theorem wrong_arity_resolution_succeeds_eval_crashes :
    (∀ prog name xs ps f x p, getattrMp name = some f →
        mpAttrIsUnary f = false → mpf xs = some x → pyInt ps = some p →
        unaryMain [prog, name, xs, ps] =
          ⟨"", [.parseOperand xs, .parsePrecision ps, .setPrecision p,
                .resolve name, .evaluate name],
           .uncaught .typeError⟩) ∧
    (∀ prog name xs ys ps f x y p, getattrMp name = some f →
        mpAttrIsBinary f = false → mpf xs = some x → mpf ys = some y →
        pyInt ps = some p →
        binaryMain [prog, name, xs, ys, ps] =
          ⟨"", [.parseOperand xs, .parseOperand ys, .parsePrecision ps,
                .setPrecision p, .resolve name, .evaluate name],
           .uncaught .typeError⟩) := by
  constructor
  · intro prog name xs ps f x p hf hu hx hp
    simp [unaryMain, hx, hp, hf, applyMp1_not_unary (mpSetDps p) f x hu]
  · intro prog name xs ys ps f x y p hf hb hx hy hp
    simp [binaryMain, hx, hy, hp, hf, applyMp2_not_binary (mpSetDps p) f x y hb]

/-- Witness for the amended C2 theorem at the names power (given to the
unary invoker) and fneg (given to the binary invoker). -/
theorem wrong_arity_resolution_succeeds_eval_crashes_witness :
    unaryMain ["call_unary_math_function.py", "power", "3", "12"] =
      ⟨"", [.parseOperand "3", .parsePrecision "12", .setPrecision 12,
            .resolve "power", .evaluate "power"],
       .uncaught .typeError⟩ ∧
    binaryMain ["call_binary_math_function.py", "fneg", "3", "4", "12"] =
      ⟨"", [.parseOperand "3", .parseOperand "4", .parsePrecision "12",
            .setPrecision 12, .resolve "fneg", .evaluate "fneg"],
       .uncaught .typeError⟩ :=
  ⟨wrong_arity_resolution_succeeds_eval_crashes.1
      "call_unary_math_function.py" "power" "3" "12" .power (.real 3 0) 12
      (by decide) (by decide) (by decide) (by decide),
   wrong_arity_resolution_succeeds_eval_crashes.2
      "call_binary_math_function.py" "fneg" "3" "4" "12" .fneg (.real 3 0)
      (.real 4 0) 12 (by decide) (by decide) (by decide) (by decide) (by decide)⟩

/-- C5: whenever the operands and the precision parse and the requested name
is absent from the library namespace, the invoker prints the line
consisting of the text Function name not found followed by in mpmath., and
exits via sys.exit with status 1 — an outcome structurally distinct from
the uncaught-exception terminations of an operand parse failure or an
evaluation failure. -/
theorem unknown_name_not_found_message_exit_one :
    (∀ prog name xs ps x p, mpf xs = some x → pyInt ps = some p →
        getattrMp name = none →
        unaryMain [prog, name, xs, ps] =
          ⟨"Function " ++ (name ++ (" not found" ++ " in mpmath.\n")),
           [.parseOperand xs, .parsePrecision ps, .setPrecision p,
            .resolve name],
           .exitCode 1⟩) ∧
    (∀ prog name xs ys ps x y p, mpf xs = some x → mpf ys = some y →
        pyInt ps = some p → getattrMp name = none →
        binaryMain [prog, name, xs, ys, ps] =
          ⟨"Function " ++ (name ++ (" not found" ++ " in mpmath.\n")),
           [.parseOperand xs, .parseOperand ys, .parsePrecision ps,
            .setPrecision p, .resolve name],
           .exitCode 1⟩) := by
  have hsplit : (" not found" ++ " in mpmath.\n" : String) = " not found in mpmath.\n" := rfl
  constructor
  · intro prog name xs ps x p hx hp hf
    rw [hsplit]
    simp [unaryMain, hx, hp, hf, notFoundLine]
  · intro prog name xs ys ps x y p hx hy hp hf
    rw [hsplit]
    simp [binaryMain, hx, hy, hp, hf, notFoundLine]

/-- Witness for C5 at the name bogus_fn, which is not in the namespace. -/
theorem unknown_name_not_found_message_exit_one_witness :
    unaryMain ["call_unary_math_function.py", "bogus_fn", "1", "10"] =
      ⟨"Function " ++ ("bogus_fn" ++ (" not found" ++ " in mpmath.\n")),
       [.parseOperand "1", .parsePrecision "10", .setPrecision 10,
        .resolve "bogus_fn"],
       .exitCode 1⟩ ∧
    binaryMain ["call_binary_math_function.py", "bogus_fn", "1", "2", "10"] =
      ⟨"Function " ++ ("bogus_fn" ++ (" not found" ++ " in mpmath.\n")),
       [.parseOperand "1", .parseOperand "2", .parsePrecision "10",
        .setPrecision 10, .resolve "bogus_fn"],
       .exitCode 1⟩ :=
  ⟨unknown_name_not_found_message_exit_one.1
      "call_unary_math_function.py" "bogus_fn" "1" "10" (.real 1 0) 10
      (by decide) (by decide) (by decide),
   unknown_name_not_found_message_exit_one.2
      "call_binary_math_function.py" "bogus_fn" "1" "2" "10" (.real 1 0)
      (.real 2 0) 10 (by decide) (by decide) (by decide) (by decide)⟩

/-- C6: whenever the argument vector does not have exactly the
arity-appropriate number of values counting the program name (four for the
unary invoker, five for the binary invoker), the invoker prints only its
usage line — which names the invoking program, as the last two conjuncts
exhibit — and exits with status 1, with an empty event trace: no operand
parsed, no precision set, no function resolved or evaluated. -/
theorem wrong_arg_count_usage_no_partial_work (argv : List String) :
    (argv.length ≠ 4 →
      unaryMain argv = ⟨unaryUsage ++ "\n", [], .exitCode 1⟩) ∧
    (argv.length ≠ 5 →
      binaryMain argv = ⟨binaryUsage ++ "\n", [], .exitCode 1⟩) ∧
    unaryUsage = "Usage: python3 " ++
      ("call_unary_math_function.py" ++ " <function_name> <x> <precision>") ∧
    binaryUsage = "Usage: python3 " ++
      ("call_binary_math_function.py" ++ " <function_name> <x> <y> <precision>") :=
  ⟨unaryMain_usage argv, binaryMain_usage argv, rfl, rfl⟩

/-- Witness for C6 at the vector of scenario 4 (missing precision
argument). -/
theorem wrong_arg_count_usage_no_partial_work_witness :
    unaryMain ["call_unary_math_function.py", "sqrt", "2"] =
      ⟨unaryUsage ++ "\n", [], .exitCode 1⟩ ∧
    binaryMain ["call_binary_math_function.py", "power", "2", "10"] =
      ⟨binaryUsage ++ "\n", [], .exitCode 1⟩ :=
  ⟨(wrong_arg_count_usage_no_partial_work
      ["call_unary_math_function.py", "sqrt", "2"]).1 (by decide),
   (wrong_arg_count_usage_no_partial_work
      ["call_binary_math_function.py", "power", "2", "10"]).2.1 (by decide)⟩

/-- C7: whenever an operand string is not valid numeric text, the run
terminates with the value error propagating uncaught out of the
operand-parsing step: nothing is printed, the trace stops at the operand
parse events (the function is never resolved or called), and the exit is
the uncaught-exception kind, whose process status is non-zero. -/
theorem malformed_operand_fatal_uncaught :
    (∀ prog name xs ps, mpf xs = none →
        unaryMain [prog, name, xs, ps] =
          ⟨"", [.parseOperand xs], .uncaught (.valueError xs)⟩) ∧
    (∀ prog name xs ys ps, mpf xs = none →
        binaryMain [prog, name, xs, ys, ps] =
          ⟨"", [.parseOperand xs], .uncaught (.valueError xs)⟩) ∧
    (∀ prog name xs ys ps x, mpf xs = some x → mpf ys = none →
        binaryMain [prog, name, xs, ys, ps] =
          ⟨"", [.parseOperand xs, .parseOperand ys],
           .uncaught (.valueError ys)⟩) ∧
    (∀ s, exitStatus (ExitKind.uncaught (PyErr.valueError s)) = 1) := by
  refine ⟨?_, ?_, ?_, fun s => rfl⟩
  · intro prog name xs ps h
    simp [unaryMain, h]
  · intro prog name xs ys ps h
    simp [binaryMain, h]
  · intro prog name xs ys ps x hx hy
    simp [binaryMain, hx, hy]

/-- Witness for C7 at the malformed operand strings abc and zz. -/
theorem malformed_operand_fatal_uncaught_witness :
    unaryMain ["call_unary_math_function.py", "fabs", "abc", "10"] =
      ⟨"", [.parseOperand "abc"], .uncaught (.valueError "abc")⟩ ∧
    binaryMain ["call_binary_math_function.py", "divide", "abc", "1", "10"] =
      ⟨"", [.parseOperand "abc"], .uncaught (.valueError "abc")⟩ ∧
    binaryMain ["call_binary_math_function.py", "divide", "1", "zz", "10"] =
      ⟨"", [.parseOperand "1", .parseOperand "zz"],
       .uncaught (.valueError "zz")⟩ :=
  ⟨malformed_operand_fatal_uncaught.1
      "call_unary_math_function.py" "fabs" "abc" "10" (by decide),
   malformed_operand_fatal_uncaught.2.1
      "call_binary_math_function.py" "divide" "abc" "1" "10" (by decide),
   malformed_operand_fatal_uncaught.2.2.1
      "call_binary_math_function.py" "divide" "1" "zz" "10" (.real 1 0)
      (by decide) (by decide)⟩

/-- C8: whenever a run reaches evaluation and the call returns a value, the
invoker prints exactly the rendered canonical decimal text of the result
followed by one line terminator — nothing else is on standard output — and
terminates normally, with process status 0. -/
theorem successful_run_prints_result_exit_zero :
    (∀ prog name xs ps x p f v, mpf xs = some x → pyInt ps = some p →
        getattrMp name = some f → applyMp1 (mpSetDps p) f x = .ok v →
        unaryMain [prog, name, xs, ps] =
          ⟨mpStr (mpSetDps p) v ++ "\n",
           [.parseOperand xs, .parsePrecision ps, .setPrecision p,
            .resolve name, .evaluate name],
           .normal⟩) ∧
    (∀ prog name xs ys ps x y p f v, mpf xs = some x → mpf ys = some y →
        pyInt ps = some p → getattrMp name = some f →
        applyMp2 (mpSetDps p) f x y = .ok v →
        binaryMain [prog, name, xs, ys, ps] =
          ⟨mpStr (mpSetDps p) v ++ "\n",
           [.parseOperand xs, .parseOperand ys, .parsePrecision ps,
            .setPrecision p, .resolve name, .evaluate name],
           .normal⟩) ∧
    exitStatus ExitKind.normal = 0 := by
  refine ⟨?_, ?_, rfl⟩
  · intro prog name xs ps x p f v hx hp hf happ
    simp [unaryMain, hx, hp, hf, happ]
  · intro prog name xs ys ps x y p f v hx hy hp hf happ
    simp [binaryMain, hx, hy, hp, hf, happ]

/-- Witness for C8: the unary run fabs 2 at precision 10 and the binary run
power 2 10 at precision 10 (scenario 2) both print their result line and
exit normally. -/
theorem successful_run_prints_result_exit_zero_witness :
    unaryMain ["call_unary_math_function.py", "fabs", "2", "10"] =
      ⟨mpStr (mpSetDps 10) (.real 2 0) ++ "\n",
       [.parseOperand "2", .parsePrecision "10", .setPrecision 10,
        .resolve "fabs", .evaluate "fabs"],
       .normal⟩ ∧
    binaryMain ["call_binary_math_function.py", "power", "2", "10", "10"] =
      ⟨mpStr (mpSetDps 10) (.real 1024 0) ++ "\n",
       [.parseOperand "2", .parseOperand "10", .parsePrecision "10",
        .setPrecision 10, .resolve "power", .evaluate "power"],
       .normal⟩ :=
  ⟨successful_run_prints_result_exit_zero.1
      "call_unary_math_function.py" "fabs" "2" "10" (.real 2 0) 10 .fabs
      (.real 2 0) (by decide) (by decide) (by decide) rfl,
   successful_run_prints_result_exit_zero.2.1
      "call_binary_math_function.py" "power" "2" "10" "10" (.real 2 0)
      (.real 10 0) 10 .power (.real 1024 0) (by decide) (by decide)
      (by decide) (by decide) rfl⟩

/-- C10: resolution searches the whole library namespace with no arity or
callability restriction: any name bound in the namespace resolves without
the Unknown Function Error being reported, and when the resolved attribute
cannot be applied to the operand(s) the failure surfaces only at the
evaluation step, as an uncaught error with non-zero exit status, after the
precision has been set and the operands parsed (both appear earlier in the
trace). -/
theorem resolution_unrestricted_failure_at_evaluation :
    (∀ prog name xs ps f x p e, getattrMp name = some f → mpf xs = some x →
        pyInt ps = some p → applyMp1 (mpSetDps p) f x = .error e →
        unaryMain [prog, name, xs, ps] =
          ⟨"", [.parseOperand xs, .parsePrecision ps, .setPrecision p,
                .resolve name, .evaluate name],
           .uncaught e⟩ ∧ exitStatus (ExitKind.uncaught e) = 1) ∧
    (∀ prog name xs ys ps f x y p e, getattrMp name = some f →
        mpf xs = some x → mpf ys = some y → pyInt ps = some p →
        applyMp2 (mpSetDps p) f x y = .error e →
        binaryMain [prog, name, xs, ys, ps] =
          ⟨"", [.parseOperand xs, .parseOperand ys, .parsePrecision ps,
                .setPrecision p, .resolve name, .evaluate name],
           .uncaught e⟩ ∧ exitStatus (ExitKind.uncaught e) = 1) := by
  constructor
  · intro prog name xs ps f x p e hf hx hp happ
    refine ⟨?_, rfl⟩
    simp [unaryMain, hx, hp, hf, happ]
  · intro prog name xs ys ps f x y p e hf hx hy hp happ
    refine ⟨?_, rfl⟩
    simp [binaryMain, hx, hy, hp, hf, happ]

/-- Witness for C10 at the constant pi — a non-callable attribute of the
namespace — under both invokers. -/
theorem resolution_unrestricted_failure_at_evaluation_witness :
    (unaryMain ["call_unary_math_function.py", "pi", "2", "10"] =
      ⟨"", [.parseOperand "2", .parsePrecision "10", .setPrecision 10,
            .resolve "pi", .evaluate "pi"],
       .uncaught .typeError⟩ ∧ exitStatus (ExitKind.uncaught .typeError) = 1) ∧
    (binaryMain ["call_binary_math_function.py", "pi", "2", "3", "10"] =
      ⟨"", [.parseOperand "2", .parseOperand "3", .parsePrecision "10",
            .setPrecision 10, .resolve "pi", .evaluate "pi"],
       .uncaught .typeError⟩ ∧ exitStatus (ExitKind.uncaught .typeError) = 1) :=
  ⟨resolution_unrestricted_failure_at_evaluation.1
      "call_unary_math_function.py" "pi" "2" "10" .pi (.real 2 0) 10
      .typeError (by decide) (by decide) (by decide) rfl,
   resolution_unrestricted_failure_at_evaluation.2
      "call_binary_math_function.py" "pi" "2" "3" "10" .pi (.real 2 0)
      (.real 3 0) 10 .typeError (by decide) (by decide) (by decide)
      (by decide) rfl⟩

/-- C4, amended: a precision argument that is not valid integer text makes
the run fatal — the value error propagates uncaught, nothing is printed,
and the function is never resolved or evaluated — but a precision that
parses as any integer, positive or not, is accepted: the run proceeds to
set the precision context (the scripts perform no positivity check). -/
theorem nonnumeric_precision_fatal_any_integer_accepted :
    (∀ prog name xs ps, pyInt ps = none →
        (unaryMain [prog, name, xs, ps]).stdout = "" ∧
        (∃ s, (unaryMain [prog, name, xs, ps]).exit = .uncaught (.valueError s)) ∧
        Event.resolve name ∉ (unaryMain [prog, name, xs, ps]).events ∧
        Event.evaluate name ∉ (unaryMain [prog, name, xs, ps]).events) ∧
    (∀ prog name xs ys ps, pyInt ps = none →
        (binaryMain [prog, name, xs, ys, ps]).stdout = "" ∧
        (∃ s, (binaryMain [prog, name, xs, ys, ps]).exit = .uncaught (.valueError s)) ∧
        Event.resolve name ∉ (binaryMain [prog, name, xs, ys, ps]).events ∧
        Event.evaluate name ∉ (binaryMain [prog, name, xs, ys, ps]).events) ∧
    (∀ prog name xs ps x p, mpf xs = some x → pyInt ps = some p →
        Event.setPrecision p ∈ (unaryMain [prog, name, xs, ps]).events) ∧
    (∀ prog name xs ys ps x y p, mpf xs = some x → mpf ys = some y →
        pyInt ps = some p →
        Event.setPrecision p ∈ (binaryMain [prog, name, xs, ys, ps]).events) := by
  refine ⟨?_, ?_, ?_, ?_⟩
  · intro prog name xs ps hp
    cases hmx : mpf xs with
    | none => refine ⟨by simp [unaryMain, hmx], ⟨xs, by simp [unaryMain, hmx]⟩,
        by simp [unaryMain, hmx], by simp [unaryMain, hmx]⟩
    | some x => refine ⟨by simp [unaryMain, hmx, hp], ⟨ps, by simp [unaryMain, hmx, hp]⟩,
        by simp [unaryMain, hmx, hp], by simp [unaryMain, hmx, hp]⟩
  · intro prog name xs ys ps hp
    cases hmx : mpf xs with
    | none => refine ⟨by simp [binaryMain, hmx], ⟨xs, by simp [binaryMain, hmx]⟩,
        by simp [binaryMain, hmx], by simp [binaryMain, hmx]⟩
    | some x =>
      cases hmy : mpf ys with
      | none => refine ⟨by simp [binaryMain, hmx, hmy],
          ⟨ys, by simp [binaryMain, hmx, hmy]⟩,
          by simp [binaryMain, hmx, hmy], by simp [binaryMain, hmx, hmy]⟩
      | some y => refine ⟨by simp [binaryMain, hmx, hmy, hp],
          ⟨ps, by simp [binaryMain, hmx, hmy, hp]⟩,
          by simp [binaryMain, hmx, hmy, hp], by simp [binaryMain, hmx, hmy, hp]⟩
  · intro prog name xs ps x p hx hp
    cases hgf : getattrMp name with
    | none => simp [unaryMain, hx, hp, hgf]
    | some f =>
      cases happ : applyMp1 (mpSetDps p) f x with
      | error e => simp [unaryMain, hx, hp, hgf, happ]
      | ok v => simp [unaryMain, hx, hp, hgf, happ]
  · intro prog name xs ys ps x y p hx hy hp
    cases hgf : getattrMp name with
    | none => simp [binaryMain, hx, hy, hp, hgf]
    | some f =>
      cases happ : applyMp2 (mpSetDps p) f x y with
      | error e => simp [binaryMain, hx, hy, hp, hgf, happ]
      | ok v => simp [binaryMain, hx, hy, hp, hgf, happ]

/-- Witness for the amended C4 theorem: a non-numeric precision string is
fatal with nothing printed, and a negative precision is accepted far
enough that the precision-setting step runs. -/
theorem nonnumeric_precision_fatal_any_integer_accepted_witness :
    ((unaryMain ["call_unary_math_function.py", "fabs", "2", "xx"]).stdout = "" ∧
     (∃ s, (unaryMain ["call_unary_math_function.py", "fabs", "2", "xx"]).exit =
        .uncaught (.valueError s)) ∧
     Event.resolve "fabs" ∉ (unaryMain ["call_unary_math_function.py", "fabs", "2", "xx"]).events ∧
     Event.evaluate "fabs" ∉ (unaryMain ["call_unary_math_function.py", "fabs", "2", "xx"]).events) ∧
    Event.setPrecision (-3) ∈
      (unaryMain ["call_unary_math_function.py", "fabs", "2", "-3"]).events ∧
    Event.setPrecision (-3) ∈
      (binaryMain ["call_binary_math_function.py", "power", "2", "10", "-3"]).events :=
  ⟨nonnumeric_precision_fatal_any_integer_accepted.1
      "call_unary_math_function.py" "fabs" "2" "xx" (by decide),
   nonnumeric_precision_fatal_any_integer_accepted.2.2.1
      "call_unary_math_function.py" "fabs" "2" "-3" (.real 2 0) (-3)
      (by decide) (by decide),
   nonnumeric_precision_fatal_any_integer_accepted.2.2.2
      "call_binary_math_function.py" "power" "2" "10" "-3" (.real 2 0)
      (.real 10 0) (-3) (by decide) (by decide) (by decide)⟩

/-- C4, counterexample: precision arguments 0 and -3 parse as non-positive
integers, yet the runs are not fatal input errors — they complete the
whole pipeline, print a numeric result line, and terminate normally with
process status 0. -/
theorem nonpositive_precision_run_completes :
    unaryMain ["call_unary_math_function.py", "fabs", "2", "0"] =
      ⟨"2.0" ++ "\n",
       [.parseOperand "2", .parsePrecision "0", .setPrecision 0,
        .resolve "fabs", .evaluate "fabs"],
       .normal⟩ ∧
    binaryMain ["call_binary_math_function.py", "power", "2", "10", "-3"] =
      ⟨"1024.0" ++ "\n",
       [.parseOperand "2", .parseOperand "10", .parsePrecision "-3",
        .setPrecision (-3), .resolve "power", .evaluate "power"],
       .normal⟩ ∧
    pyInt "0" = some 0 ∧ pyInt "-3" = some (-3) ∧
    exitStatus ExitKind.normal = 0 :=
  ⟨by decide, by decide, by decide, by decide, rfl⟩

/-- Big-step execution relation of the unary invoker: one constructor per
control path of main — wrong argument count, operand parse failure,
precision parse failure, unknown name, evaluation failure, success. -/
inductive URun : List String → RunResult → Prop where
  | badArgc (argv : List String) (h : argv.length ≠ 4) :
      URun argv ⟨unaryUsage ++ "\n", [], .exitCode 1⟩
  | operandFail (prog name xs ps : String) (h : mpf xs = none) :
      URun [prog, name, xs, ps]
        ⟨"", [.parseOperand xs], .uncaught (.valueError xs)⟩
  | precisionFail (prog name xs ps : String) (x : MpVal)
      (hx : mpf xs = some x) (hp : pyInt ps = none) :
      URun [prog, name, xs, ps]
        ⟨"", [.parseOperand xs, .parsePrecision ps],
         .uncaught (.valueError ps)⟩
  | notFound (prog name xs ps : String) (x : MpVal) (p : Int)
      (hx : mpf xs = some x) (hp : pyInt ps = some p)
      (hf : getattrMp name = none) :
      URun [prog, name, xs, ps]
        ⟨notFoundLine name,
         [.parseOperand xs, .parsePrecision ps, .setPrecision p,
          .resolve name],
         .exitCode 1⟩
  | evalFail (prog name xs ps : String) (x : MpVal) (p : Int) (f : MpAttr)
      (e : PyErr) (hx : mpf xs = some x) (hp : pyInt ps = some p)
      (hf : getattrMp name = some f)
      (happ : applyMp1 (mpSetDps p) f x = .error e) :
      URun [prog, name, xs, ps]
        ⟨"", [.parseOperand xs, .parsePrecision ps, .setPrecision p,
              .resolve name, .evaluate name],
         .uncaught e⟩
  | success (prog name xs ps : String) (x : MpVal) (p : Int) (f : MpAttr)
      (v : MpVal) (hx : mpf xs = some x) (hp : pyInt ps = some p)
      (hf : getattrMp name = some f)
      (happ : applyMp1 (mpSetDps p) f x = .ok v) :
      URun [prog, name, xs, ps]
        ⟨mpStr (mpSetDps p) v ++ "\n",
         [.parseOperand xs, .parsePrecision ps, .setPrecision p,
          .resolve name, .evaluate name],
         .normal⟩

/-- Big-step execution relation of the binary invoker, mirroring its seven
control paths. -/
inductive BRun : List String → RunResult → Prop where
  | badArgc (argv : List String) (h : argv.length ≠ 5) :
      BRun argv ⟨binaryUsage ++ "\n", [], .exitCode 1⟩
  | operandFailX (prog name xs ys ps : String) (h : mpf xs = none) :
      BRun [prog, name, xs, ys, ps]
        ⟨"", [.parseOperand xs], .uncaught (.valueError xs)⟩
  | operandFailY (prog name xs ys ps : String) (x : MpVal)
      (hx : mpf xs = some x) (hy : mpf ys = none) :
      BRun [prog, name, xs, ys, ps]
        ⟨"", [.parseOperand xs, .parseOperand ys],
         .uncaught (.valueError ys)⟩
  | precisionFail (prog name xs ys ps : String) (x y : MpVal)
      (hx : mpf xs = some x) (hy : mpf ys = some y) (hp : pyInt ps = none) :
      BRun [prog, name, xs, ys, ps]
        ⟨"", [.parseOperand xs, .parseOperand ys, .parsePrecision ps],
         .uncaught (.valueError ps)⟩
  | notFound (prog name xs ys ps : String) (x y : MpVal) (p : Int)
      (hx : mpf xs = some x) (hy : mpf ys = some y) (hp : pyInt ps = some p)
      (hf : getattrMp name = none) :
      BRun [prog, name, xs, ys, ps]
        ⟨notFoundLine name,
         [.parseOperand xs, .parseOperand ys, .parsePrecision ps,
          .setPrecision p, .resolve name],
         .exitCode 1⟩
  | evalFail (prog name xs ys ps : String) (x y : MpVal) (p : Int)
      (f : MpAttr) (e : PyErr) (hx : mpf xs = some x) (hy : mpf ys = some y)
      (hp : pyInt ps = some p) (hf : getattrMp name = some f)
      (happ : applyMp2 (mpSetDps p) f x y = .error e) :
      BRun [prog, name, xs, ys, ps]
        ⟨"", [.parseOperand xs, .parseOperand ys, .parsePrecision ps,
              .setPrecision p, .resolve name, .evaluate name],
         .uncaught e⟩
  | success (prog name xs ys ps : String) (x y : MpVal) (p : Int)
      (f : MpAttr) (v : MpVal) (hx : mpf xs = some x) (hy : mpf ys = some y)
      (hp : pyInt ps = some p) (hf : getattrMp name = some f)
      (happ : applyMp2 (mpSetDps p) f x y = .ok v) :
      BRun [prog, name, xs, ys, ps]
        ⟨mpStr (mpSetDps p) v ++ "\n",
         [.parseOperand xs, .parseOperand ys, .parsePrecision ps,
          .setPrecision p, .resolve name, .evaluate name],
         .normal⟩

/-- Every unary execution derivation computes exactly the run result of the
unary main function. -/
theorem uRun_eq (argv : List String) (r : RunResult) (h : URun argv r) :
    r = unaryMain argv := by
  cases h with
  | badArgc argv h => exact (unaryMain_usage argv h).symm
  | operandFail prog name xs ps h => simp [unaryMain, h]
  | precisionFail prog name xs ps x hx hp => simp [unaryMain, hx, hp]
  | notFound prog name xs ps x p hx hp hf => simp [unaryMain, hx, hp, hf]
  | evalFail prog name xs ps x p f e hx hp hf happ =>
      simp [unaryMain, hx, hp, hf, happ]
  | success prog name xs ps x p f v hx hp hf happ =>
      simp [unaryMain, hx, hp, hf, happ]

/-- Every binary execution derivation computes exactly the run result of
the binary main function. -/
theorem bRun_eq (argv : List String) (r : RunResult) (h : BRun argv r) :
    r = binaryMain argv := by
  cases h with
  | badArgc argv h => exact (binaryMain_usage argv h).symm
  | operandFailX prog name xs ys ps h => simp [binaryMain, h]
  | operandFailY prog name xs ys ps x hx hy => simp [binaryMain, hx, hy]
  | precisionFail prog name xs ys ps x y hx hy hp =>
      simp [binaryMain, hx, hy, hp]
  | notFound prog name xs ys ps x y p hx hy hp hf =>
      simp [binaryMain, hx, hy, hp, hf]
  | evalFail prog name xs ys ps x y p f e hx hy hp hf happ =>
      simp [binaryMain, hx, hy, hp, hf, happ]
  | success prog name xs ys ps x y p f v hx hy hp hf happ =>
      simp [binaryMain, hx, hy, hp, hf, happ]

/-- C9: the harness is deterministic — any two executions of the same entry
point on the same fixed argument vector produce byte-identical standard
output and the same process exit status. -/
theorem run_relation_deterministic :
    (∀ argv r₁ r₂, URun argv r₁ → URun argv r₂ →
        r₁.stdout = r₂.stdout ∧ exitStatus r₁.exit = exitStatus r₂.exit) ∧
    (∀ argv r₁ r₂, BRun argv r₁ → BRun argv r₂ →
        r₁.stdout = r₂.stdout ∧ exitStatus r₁.exit = exitStatus r₂.exit) := by
  constructor
  · intro argv r₁ r₂ h₁ h₂
    rw [uRun_eq argv r₁ h₁, uRun_eq argv r₂ h₂]
    exact ⟨rfl, rfl⟩
  · intro argv r₁ r₂ h₁ h₂
    rw [bRun_eq argv r₁ h₁, bRun_eq argv r₂ h₂]
    exact ⟨rfl, rfl⟩

/-- Witness for C9 at two concrete executions of each entry point. -/
theorem run_relation_deterministic_witness :
    ((RunResult.mk (mpStr (mpSetDps 10) (.real 2 0) ++ "\n")
        [.parseOperand "2", .parsePrecision "10", .setPrecision 10,
         .resolve "fabs", .evaluate "fabs"] .normal).stdout =
      (RunResult.mk (mpStr (mpSetDps 10) (.real 2 0) ++ "\n")
        [.parseOperand "2", .parsePrecision "10", .setPrecision 10,
         .resolve "fabs", .evaluate "fabs"] .normal).stdout ∧
     exitStatus (RunResult.mk (mpStr (mpSetDps 10) (.real 2 0) ++ "\n")
        [.parseOperand "2", .parsePrecision "10", .setPrecision 10,
         .resolve "fabs", .evaluate "fabs"] .normal).exit =
      exitStatus (RunResult.mk (mpStr (mpSetDps 10) (.real 2 0) ++ "\n")
        [.parseOperand "2", .parsePrecision "10", .setPrecision 10,
         .resolve "fabs", .evaluate "fabs"] .normal).exit) ∧
    ((RunResult.mk (mpStr (mpSetDps 10) (.real 1024 0) ++ "\n")
        [.parseOperand "2", .parseOperand "10", .parsePrecision "10",
         .setPrecision 10, .resolve "power", .evaluate "power"] .normal).stdout =
      (RunResult.mk (mpStr (mpSetDps 10) (.real 1024 0) ++ "\n")
        [.parseOperand "2", .parseOperand "10", .parsePrecision "10",
         .setPrecision 10, .resolve "power", .evaluate "power"] .normal).stdout ∧
     exitStatus (RunResult.mk (mpStr (mpSetDps 10) (.real 1024 0) ++ "\n")
        [.parseOperand "2", .parseOperand "10", .parsePrecision "10",
         .setPrecision 10, .resolve "power", .evaluate "power"] .normal).exit =
      exitStatus (RunResult.mk (mpStr (mpSetDps 10) (.real 1024 0) ++ "\n")
        [.parseOperand "2", .parseOperand "10", .parsePrecision "10",
         .setPrecision 10, .resolve "power", .evaluate "power"] .normal).exit) := by
  have hU : URun ["call_unary_math_function.py", "fabs", "2", "10"]
      ⟨mpStr (mpSetDps 10) (.real 2 0) ++ "\n",
       [.parseOperand "2", .parsePrecision "10", .setPrecision 10,
        .resolve "fabs", .evaluate "fabs"], .normal⟩ :=
    URun.success "call_unary_math_function.py" "fabs" "2" "10" (.real 2 0)
      10 .fabs (.real 2 0) (by decide) (by decide) (by decide) rfl
  have hB : BRun ["call_binary_math_function.py", "power", "2", "10", "10"]
      ⟨mpStr (mpSetDps 10) (.real 1024 0) ++ "\n",
       [.parseOperand "2", .parseOperand "10", .parsePrecision "10",
        .setPrecision 10, .resolve "power", .evaluate "power"], .normal⟩ :=
    BRun.success "call_binary_math_function.py" "power" "2" "10" "10"
      (.real 2 0) (.real 10 0) 10 .power (.real 1024 0) (by decide)
      (by decide) (by decide) (by decide) rfl
  exact ⟨run_relation_deterministic.1 _ _ _ hU hU,
         run_relation_deterministic.2 _ _ _ hB hB⟩

/-- C1: evaluated at a well-formed argument vector, each invoker's trace
starts with the operand parse events, and the precision-setting event
appears only after them: the scripts call mpf on every operand before
assigning mp.dps, so the operands are constructed before the precision
context is established — the reverse of the claimed ordering. -/
theorem operand_parsed_before_precision_set :
    (unaryMain ["call_unary_math_function.py", "fabs",
        "0.12345678901234567890123456789", "50"]).events =
      [.parseOperand "0.12345678901234567890123456789",
       .parsePrecision "50", .setPrecision 50, .resolve "fabs",
       .evaluate "fabs"] ∧
    (binaryMain ["call_binary_math_function.py", "divide",
        "0.12345678901234567890123456789", "3", "50"]).events =
      [.parseOperand "0.12345678901234567890123456789", .parseOperand "3",
       .parsePrecision "50", .setPrecision 50, .resolve "divide",
       .evaluate "divide"] :=
  ⟨by decide, by decide⟩
